import Mathlib

/-!
# nginx-asg-sync: configuration validation, the AWS provider and the sync loop

A shallow embedding of `cmd/sync/config.go`, `cmd/sync/aws.go`,
`cmd/sync/provider.go` and the loops of `cmd/sync/main.go`.

Conventions of the embedding:

* a Go `error` is an `Option String`: `none` is `nil`, `some msg` is an error
  whose `Error()` text is `msg`;
* Go `int` and `time.Duration` values are `Int`; the one place where 64-bit
  wrap-around matters (`interval * time.Second`) wraps explicitly;
* a Go `for ... range` loop that appends to a slice is a left fold that
  appends at the end, a loop with an early `return` is a recursion over the
  list;
* remote services (the Auto Scaling API, the EC2 API, the NGINX Plus API) are
  functions from the request to the response.
-/

namespace AsgSync

/-! ## config.go -/

/-- The struct `awsUpstream` of `config.go`. -/
structure awsUpstream where
  Name : String
  AutoscalingGroup : String
  Port : Int
  Kind : String
  deriving DecidableEq, Repr

/-- The struct `awsConfig` of `config.go`. -/
structure awsConfig where
  Region : String
  APIEndpoint : String
  SyncIntervalInSeconds : Int
  Upstreams : List awsUpstream
  deriving DecidableEq, Repr

/-- The constant `errorMsgFormat` applied to its `%v` argument. -/
def errorMsgFormat (field : String) : String :=
  "The mandatory field " ++ field ++ " is either empty or missing in the config file"

/-- The constant `intervalErrorMsg`. -/
def intervalErrorMsg : String :=
  "The mandatory field sync_interval_in_seconds is either 0 or missing in the config file"

/-- The constant `upstreamNameErrorMsg`. -/
def upstreamNameErrorMsg : String :=
  "The mandatory field name is either empty or missing for an upstream in the config file"

/-- The constant `upstreamErrorMsgFormat` applied to its two `%v` arguments. -/
def upstreamErrorMsgFormat (field upstream : String) : String :=
  "The mandatory field " ++ field ++ " is either empty or missing for the upstream "
    ++ upstream ++ " in the config file"

/-- The constant `upstreamPortErrorMsgFormat` applied to its `%v` argument. -/
def upstreamPortErrorMsgFormat (upstream : String) : String :=
  "The mandatory field port is either zero or missing for the upstream "
    ++ upstream ++ " in the config file"

/-- The constant `upstreamKindErrorMsgFormat` applied to its `%v` argument. -/
def upstreamKindErrorMsgFormat (upstream : String) : String :=
  "The mandatory field kind is either not equal to http or tcp or missing for the upstream "
    ++ upstream ++ " in the config file"

/-- The message of the empty-upstream-list error of `validateAWSConfig`. -/
def noUpstreamsErrorMsg : String :=
  "There is no upstreams found in the config file"

/-- The `for _, ups := range cfg.Upstreams` loop of `validateAWSConfig`:
the first failing check of the first failing upstream returns. -/
def validateUpstreams : List awsUpstream → Option String
  | [] => none
  | ups :: rest =>
    if ups.Name = "" then
      some upstreamNameErrorMsg
    else if ups.AutoscalingGroup = "" then
      some (upstreamErrorMsgFormat "autoscaling_group" ups.Name)
    else if ups.Port = 0 then
      some (upstreamPortErrorMsgFormat ups.Name)
    else if ups.Kind = "" ∨ ¬ (ups.Kind = "http" ∨ ups.Kind = "stream") then
      some (upstreamKindErrorMsgFormat ups.Name)
    else
      validateUpstreams rest

/-- The function `validateAWSConfig` of `config.go`. -/
def validateAWSConfig (cfg : awsConfig) : Option String :=
  if cfg.Region = "" then
    some (errorMsgFormat "region")
  else if cfg.APIEndpoint = "" then
    some (errorMsgFormat "api_endpoint")
  else if cfg.SyncIntervalInSeconds = 0 then
    some intervalErrorMsg
  else if cfg.Upstreams.length = 0 then
    some noUpstreamsErrorMsg
  else
    validateUpstreams cfg.Upstreams

/-- The rules one upstream has to pass in `validateAWSConfig`. -/
def upstreamPasses (ups : awsUpstream) : Prop :=
  ups.Name ≠ "" ∧ ups.AutoscalingGroup ≠ "" ∧ ups.Port ≠ 0 ∧
    (ups.Kind = "http" ∨ ups.Kind = "stream")

instance (ups : awsUpstream) : Decidable (upstreamPasses ups) := by
  unfold upstreamPasses; infer_instance

/-- The config of `getValidConfig` in `config_test.go`. -/
def getValidConfig : awsConfig :=
  { Region := "us-west-2"
    APIEndpoint := "http://127.0.0.1:8080/api"
    SyncIntervalInSeconds := 1
    Upstreams := [{ Name := "backend1", AutoscalingGroup := "backend-group",
                    Port := 80, Kind := "http" }] }

/-- Spec-side reading of "the error message names that field": the text of
`field` occurs in the text of `msg`. -/
def mentions (msg field : String) : Prop :=
  field.data <:+: msg.data

/-! ## provider.go -/

/-- The struct `Upstream` of `provider.go`. -/
structure Upstream where
  Name : String
  Port : Int
  ScalingGroup : String
  Kind : String
  deriving DecidableEq, Repr

/-- The methods of the interface `CloudProvider` that `main` calls after the
provider has been configured. -/
structure CloudProvider where
  GetPrivateIPsForScalingGroup : String → Except String (List String)
  CheckIfScalingGroupExists : String → Bool × Option String
  GetUpstreamsConfig : List Upstream
  GetAPIEndpoint : String
  GetSyncIntervalInSeconds : Int

/-! ## aws.go -/

/-- The field of the SDK type `autoscaling.Instance` read by `aws.go`;
`InstanceId` is a `*string`. -/
structure autoscaling.Instance where
  InstanceId : Option String
  deriving DecidableEq, Repr

/-- The field of the SDK type `autoscaling.Group` read by `aws.go`. -/
structure autoscaling.Group where
  Instances : List autoscaling.Instance
  deriving DecidableEq, Repr

/-- The field of the SDK type `ec2.InstanceNetworkInterface` read by `aws.go`;
`PrivateIpAddress` is a `*string`. -/
structure ec2.InstanceNetworkInterface where
  PrivateIpAddress : Option String
  deriving DecidableEq, Repr

/-- The field of the SDK type `ec2.Instance` read by `aws.go`. -/
structure ec2.Instance where
  NetworkInterfaces : List ec2.InstanceNetworkInterface
  deriving DecidableEq, Repr

/-- The field of the SDK type `ec2.Reservation` read by `aws.go`. -/
structure ec2.Reservation where
  Instances : List ec2.Instance
  deriving DecidableEq, Repr

/-- The struct `AWSClient` of `aws.go`. `svcAutoscaling` stands for
`svcAutoscaling.DescribeAutoScalingGroups` as a function of the requested
group names, `svcEC2` for `svcEC2.DescribeInstances` as a function of the
requested instance ids; `config` is the saved config. -/
structure AWSClient where
  svcEC2 : List (Option String) → Except String (List ec2.Reservation)
  svcAutoscaling : List String → Except String (List autoscaling.Group)
  config : awsConfig

/-- How `%v` prints a Go `error`: `<nil>` for `nil`, the `Error()` text
otherwise. -/
def fmtError : Option String → String
  | none => "<nil>"
  | some err => err

/-- The method `getAutoscalingGroup` of `aws.go`; the result is the Go triple
`(*autoscaling.Group, bool, error)`. -/
def AWSClient.getAutoscalingGroup (client : AWSClient) (name : String) :
    Option autoscaling.Group × Bool × Option String :=
  match client.svcAutoscaling [name] with
  | .error err => (none, false, some err)
  | .ok resp =>
    if resp.length ≠ 1 then
      (none, false, none)
    else
      (resp.head?, true, none)

/-- The method `getInstancesOfAutoscalingGroup` of `aws.go`; the result is the
Go pair `([]*ec2.Instance, error)`. -/
def AWSClient.getInstancesOfAutoscalingGroup (client : AWSClient)
    (group : autoscaling.Group) : List ec2.Instance × Option String :=
  if group.Instances.length = 0 then
    ([], none)
  else
    let ids := group.Instances.foldl (fun ids ins => ids ++ [ins.InstanceId]) []
    match client.svcEC2 ids with
    | .error err => ([], some err)
    | .ok resp => (resp.foldl (fun result res => result ++ res.Instances) [], none)

/-- The body of the `for _, ins := range instances` loop of
`GetPrivateIPsForScalingGroup`. -/
def appendPrivateIP (result : List String) (ins : ec2.Instance) : List String :=
  match ins.NetworkInterfaces with
  | [] => result
  | ni :: _ =>
    match ni.PrivateIpAddress with
    | none => result
    | some ip => result ++ [ip]

/-- The method `GetPrivateIPsForScalingGroup` of `aws.go`. A `true` flag
always comes with a group, so the dereference of a nil group is unreachable. -/
def AWSClient.GetPrivateIPsForScalingGroup (client : AWSClient) (name : String) :
    Except String (List String) :=
  match client.getAutoscalingGroup name with
  | (_, _, some err) => .error err
  | (group, found, none) =>
    if !found then
      .error ("autoscaling group " ++ name ++ " doesn't exist")
    else
      match group with
      | none => .error "invalid memory address or nil pointer dereference"
      | some group =>
        match client.getInstancesOfAutoscalingGroup group with
        | (_, some err) => .error err
        | (instances, none) => .ok (instances.foldl appendPrivateIP [])

/-- The method `CheckIfScalingGroupExists` of `aws.go`: the error of
`getAutoscalingGroup` is passed through `fmt.Errorf` on every path. -/
def AWSClient.CheckIfScalingGroupExists (client : AWSClient) (name : String) :
    Bool × Option String :=
  match client.getAutoscalingGroup name with
  | (_, found, err) =>
    (found, some ("couldn't check if an AutoScaling group exists: " ++ fmtError err))

/-- The method `GetUpstreamsConfig` of `aws.go`. -/
def AWSClient.GetUpstreamsConfig (client : AWSClient) : List Upstream :=
  client.config.Upstreams.foldl
    (fun upstreams u => upstreams ++
      [{ Name := u.Name, Port := u.Port, ScalingGroup := u.AutoscalingGroup, Kind := u.Kind }])
    []

/-- The method `GetSyncIntervalInSeconds` of `aws.go`. -/
def AWSClient.GetSyncIntervalInSeconds (client : AWSClient) : Int :=
  client.config.SyncIntervalInSeconds

/-- The method `GetAPIEndpoint` of `aws.go`. -/
def AWSClient.GetAPIEndpoint (client : AWSClient) : String :=
  client.config.APIEndpoint

/-- The `AWSClient` seen through the interface `CloudProvider`, as `main`
uses it. -/
def AWSClient.toCloudProvider (client : AWSClient) : CloudProvider :=
  { GetPrivateIPsForScalingGroup := client.GetPrivateIPsForScalingGroup
    CheckIfScalingGroupExists := client.CheckIfScalingGroupExists
    GetUpstreamsConfig := client.GetUpstreamsConfig
    GetAPIEndpoint := client.GetAPIEndpoint
    GetSyncIntervalInSeconds := client.GetSyncIntervalInSeconds }

/-- The first network interface's private address of an instance, when the
instance has an interface and that first interface has an address. -/
def firstPrivateIP (ins : ec2.Instance) : Option String :=
  match ins.NetworkInterfaces with
  | [] => none
  | ni :: _ => ni.PrivateIpAddress

/-- Spec-side reading of "an instance that has at least one interface with an
assigned private address": some interface of the instance has an address. -/
def hasInterfaceWithAddress (ins : ec2.Instance) : Bool :=
  ins.NetworkInterfaces.any (fun ni => ni.PrivateIpAddress.isSome)

/-- Spec-side result of `GetPrivateIPsForScalingGroup` on the instances
returned across reservations: for each instance that has at least one
interface with an assigned private address, the private address of its first
network interface. -/
def specPrivateIPs (instances : List ec2.Instance) : List (Option String) :=
  (instances.filter hasInterfaceWithAddress).map firstPrivateIP

/-! ## main.go -/

/-- The fields of `nginx.UpstreamServer` that `main` sets; the type is declared
in the NGINX Plus client library. -/
structure nginx.UpstreamServer where
  Server : String
  MaxFails : Int
  deriving DecidableEq, Repr

/-- The fields of `nginx.StreamUpstreamServer` that `main` sets; the type is
declared in the NGINX Plus client library. -/
structure nginx.StreamUpstreamServer where
  Server : String
  MaxFails : Int
  deriving DecidableEq, Repr

/-- The methods of the NGINX Plus client that `main` calls, as functions of
their arguments: the two existence checks return a Go `error`, the two
updates return the added and removed servers or an error. -/
structure nginx.NginxClient where
  CheckIfUpstreamExists : String → Option String
  CheckIfStreamUpstreamExists : String → Option String
  UpdateHTTPServers : String → List nginx.UpstreamServer →
    Except String (List nginx.UpstreamServer × List nginx.UpstreamServer)
  UpdateStreamServers : String → List nginx.StreamUpstreamServer →
    Except String (List nginx.StreamUpstreamServer × List nginx.StreamUpstreamServer)

/-- One `log.Printf` or `log.Println` call of the preflight and of the loop of
`main`, with the arguments of its format string. -/
inductive LogEntry where
  /-- `Problem with the NGINX configuration: %v`. -/
  | nginxProblem (err : String)
  /-- `Error with cloud provider configuration: %v`. -/
  | cloudProviderError (err : String)
  /-- `Warning: Scaling group '%v' doesn't exist in the cloud provider`. -/
  | scalingGroupWarning (scalingGroup : String)
  /-- `Couldn't get the IP addresses for %v: %v`. -/
  | ipError (scalingGroup : String) (err : String)
  /-- `Couldn't update HTTP servers in NGINX: %v`. -/
  | httpUpdateError (err : String)
  /-- `Updated HTTP servers of %v; Added: %v, Removed: %v`. -/
  | httpUpdated (upstream : Upstream) (added removed : List nginx.UpstreamServer)
  /-- `Couldn't update Steam servers in NGINX: %v`. -/
  | streamUpdateError (err : String)
  /-- `Updated Stream servers of %v; Added: %v, Removed: %v`. -/
  | streamUpdated (upstream : Upstream) (added removed : List nginx.StreamUpstreamServer)
  deriving DecidableEq, Repr

/-- What one tick does that is visible outside the process: a request for
the IPs of a scaling group, a submission of a server list, a log line. -/
inductive Event where
  | getIPs (scalingGroup : String)
  | updateHTTP (name : String) (servers : List nginx.UpstreamServer)
  | updateStream (name : String) (servers : List nginx.StreamUpstreamServer)
  | log (entry : LogEntry)
  deriving DecidableEq, Repr

/-- How preflight ends: `os.Exit(code)`, or the loop is entered. -/
inductive PreflightOutcome where
  | exit (code : Int)
  | loopEntered
  deriving DecidableEq, Repr

/-- The expression `fmt.Sprintf("%v:%v", ip, upstream.Port)` of `main`: `%v`
prints a string as it is and an `int` in decimal. -/
def backend (ip : String) (port : Int) : String :=
  ip ++ ":" ++ toString port

/-- The `for _, ip := range ips` loop of the http branch of `main`. -/
def httpServers (ips : List String) (port : Int) : List nginx.UpstreamServer :=
  ips.foldl
    (fun upsServers ip => upsServers ++ [{ Server := backend ip port, MaxFails := 1 }]) []

/-- The `for _, ip := range ips` loop of the stream branch of `main`. -/
def streamServers (ips : List String) (port : Int) : List nginx.StreamUpstreamServer :=
  ips.foldl
    (fun upsServers ip => upsServers ++ [{ Server := backend ip port, MaxFails := 1 }]) []

/-- The body of the `for _, upstream := range ...` loop of a tick of `main`,
as the list of events it produces. -/
def syncUpstream (provider : CloudProvider) (nginxClient : nginx.NginxClient)
    (upstream : Upstream) : List Event :=
  .getIPs upstream.ScalingGroup ::
  match provider.GetPrivateIPsForScalingGroup upstream.ScalingGroup with
  | .error err => [.log (.ipError upstream.ScalingGroup err)]
  | .ok ips =>
    if upstream.Kind = "http" then
      let upsServers := httpServers ips upstream.Port
      .updateHTTP upstream.Name upsServers ::
      match nginxClient.UpdateHTTPServers upstream.Name upsServers with
      | .error err => [.log (.httpUpdateError err)]
      | .ok (added, removed) =>
        if added.length > 0 ∨ removed.length > 0 then
          [.log (.httpUpdated upstream added removed)]
        else
          []
    else
      let upsServers := streamServers ips upstream.Port
      .updateStream upstream.Name upsServers ::
      match nginxClient.UpdateStreamServers upstream.Name upsServers with
      | .error err => [.log (.streamUpdateError err)]
      | .ok (added, removed) =>
        if added.length > 0 ∨ removed.length > 0 then
          [.log (.streamUpdated upstream added removed)]
        else
          []

/-- The `for _, upstream := range ...` loop of a tick of `main` over a list
of upstreams: `continue` goes on with the next upstream. -/
def syncUpstreams (provider : CloudProvider) (nginxClient : nginx.NginxClient) :
    List Upstream → List Event
  | [] => []
  | upstream :: rest =>
    syncUpstream provider nginxClient upstream ++ syncUpstreams provider nginxClient rest

/-- One tick of the loop of `main`, up to the wait. -/
def tick (provider : CloudProvider) (nginxClient : nginx.NginxClient) : List Event :=
  syncUpstreams provider nginxClient provider.GetUpstreamsConfig

/-- The first statement of the body of the preflight loop of `main`: the
existence check of the upstream on NGINX, by kind; `none` when it exists. -/
def upstreamExistsError (nginxClient : nginx.NginxClient) (ups : Upstream) : Option String :=
  if ups.Kind = "http" then
    nginxClient.CheckIfUpstreamExists ups.Name
  else
    nginxClient.CheckIfStreamUpstreamExists ups.Name

/-- The preflight loop of `main` over a list of upstreams: the log lines
written and how it ends. `os.Exit(10)` ends the pass at once. -/
def preflightUpstreams (provider : CloudProvider) (nginxClient : nginx.NginxClient) :
    List Upstream → List LogEntry × PreflightOutcome
  | [] => ([], .loopEntered)
  | ups :: rest =>
    match upstreamExistsError nginxClient ups with
    | some err => ([.nginxProblem err], .exit 10)
    | none =>
      match provider.CheckIfScalingGroupExists ups.ScalingGroup with
      | (_, some err) => ([.cloudProviderError err], .exit 10)
      | (found, none) =>
        let later := preflightUpstreams provider nginxClient rest
        if !found then
          (.scalingGroupWarning ups.ScalingGroup :: later.1, later.2)
        else
          later

/-- The preflight of `main`: the pass over `GetUpstreamsConfig()`. -/
def preflight (provider : CloudProvider) (nginxClient : nginx.NginxClient) :
    List LogEntry × PreflightOutcome :=
  preflightUpstreams provider nginxClient provider.GetUpstreamsConfig

/-- A Go `int64` product or sum brought back into the 64-bit range. -/
def wrapInt64 (x : Int) : Int :=
  (x + 2 ^ 63) % 2 ^ 64 - 2 ^ 63

/-- The constant `time.Second`, in nanoseconds. -/
def Second : Int := 1000000000

/-- The duration `cloudProviderClient.GetSyncIntervalInSeconds() * time.Second`
passed to `time.After` at the end of a tick, in nanoseconds. -/
def tickWait (provider : CloudProvider) : Int :=
  wrapInt64 (provider.GetSyncIntervalInSeconds * Second)

/-- The submissions among the events of a tick: the branch (`true` for http),
the upstream name and the addresses with their `MaxFails`. -/
def submissions : List Event → List (Bool × String × List (String × Int))
  | [] => []
  | .updateHTTP name servers :: rest =>
    (true, name, servers.map (fun s => (s.Server, s.MaxFails))) :: submissions rest
  | .updateStream name servers :: rest =>
    (false, name, servers.map (fun s => (s.Server, s.MaxFails))) :: submissions rest
  | _ :: rest => submissions rest

/-- The log entries among the events of a tick. -/
def logEntries : List Event → List LogEntry
  | [] => []
  | .log entry :: rest => entry :: logEntries rest
  | _ :: rest => logEntries rest

/-- The scaling groups whose IPs a tick asks for, in the order of the requests. -/
def ipRequests : List Event → List String
  | [] => []
  | .getIPs scalingGroup :: rest => scalingGroup :: ipRequests rest
  | _ :: rest => ipRequests rest

/-- Whether a log entry is the error of a failed IP resolution. -/
def LogEntry.isIPError : LogEntry → Bool
  | .ipError _ _ => true
  | _ => false

/-! ## Spec-side predicates and concrete inputs -/

deriving instance DecidableEq for Except

/-- Spec-side list of the conditions under which validation has to fail:
an empty region, an empty api_endpoint, a zero sync interval, an empty
upstream list, or an upstream with an empty name, an empty
autoscaling_group, a zero port or a kind other than `http` and `stream`. -/
def violatesMandatory (cfg : awsConfig) : Prop :=
  cfg.Region = "" ∨ cfg.APIEndpoint = "" ∨ cfg.SyncIntervalInSeconds = 0 ∨
    cfg.Upstreams = [] ∨
    ∃ ups ∈ cfg.Upstreams,
      ups.Name = "" ∨ ups.AutoscalingGroup = "" ∨ ups.Port = 0 ∨
        ¬ (ups.Kind = "http" ∨ ups.Kind = "stream")

instance (cfg : awsConfig) : Decidable (violatesMandatory cfg) := by
  unfold violatesMandatory; infer_instance

/-- The valid test config with the kind of its upstream replaced. -/
def configWithKind (kind : String) : awsConfig :=
  { getValidConfig with
    Upstreams := [{ Name := "backend1", AutoscalingGroup := "backend-group",
                    Port := 80, Kind := kind }] }

/-- The valid test config with the port of its upstream replaced. -/
def configWithPort (port : Int) : awsConfig :=
  { getValidConfig with
    Upstreams := [{ Name := "backend1", AutoscalingGroup := "backend-group",
                    Port := port, Kind := "http" }] }

/-- The valid test config with its sync interval replaced. -/
def configWithInterval (interval : Int) : awsConfig :=
  { getValidConfig with SyncIntervalInSeconds := interval }

/-- The config of `validYaml` in `config_test.go`. -/
def validYamlConfig : awsConfig :=
  { Region := "us-west-2"
    APIEndpoint := "http://127.0.0.1:8080/api"
    SyncIntervalInSeconds := 5
    Upstreams := [{ Name := "backend1", AutoscalingGroup := "backend-group",
                    Port := 80, Kind := "http" },
                  { Name := "backend2", AutoscalingGroup := "backend-group",
                    Port := 80, Kind := "http" }] }

/-- An `AWSClient` with fixed answers of the two cloud queries. -/
def clientWith (groups : Except String (List autoscaling.Group))
    (reservations : Except String (List ec2.Reservation)) (cfg : awsConfig) : AWSClient :=
  { svcEC2 := fun _ => reservations
    svcAutoscaling := fun _ => groups
    config := cfg }

/-- A config in which every top-level field is missing. -/
def emptyConfig : awsConfig :=
  { Region := "", APIEndpoint := "", SyncIntervalInSeconds := 0, Upstreams := [] }

/-- A config whose first upstream is valid, whose second upstream has a zero
port and a wrong kind, and whose third upstream has no name. -/
def secondUpstreamBrokenConfig : awsConfig :=
  { getValidConfig with
    Upstreams := [{ Name := "backend1", AutoscalingGroup := "backend-group",
                    Port := 80, Kind := "http" },
                  { Name := "backend2", AutoscalingGroup := "backend-group",
                    Port := 0, Kind := "tcp" },
                  { Name := "", AutoscalingGroup := "", Port := 0, Kind := "" }] }

/-- Spec-side submission of a tick for one upstream: when its IPs resolve, the
branch by kind, the upstream name and one `ip:port` address with `MaxFails`
1 per IP, in the order of the IPs; nothing when the resolution fails. -/
def expectedSubmission (provider : CloudProvider) (u : Upstream) :
    Option (Bool × String × List (String × Int)) :=
  match provider.GetPrivateIPsForScalingGroup u.ScalingGroup with
  | .ok ips =>
    some (decide (u.Kind = "http"), u.Name, ips.map (fun ip => (ip ++ ":" ++ toString u.Port, 1)))
  | .error _ => none

/-- Spec-side error log entry of a tick for one upstream: the entry of the
failed IP resolution when it fails, nothing when it succeeds. -/
def expectedIPError (provider : CloudProvider) (u : Upstream) : Option LogEntry :=
  match provider.GetPrivateIPsForScalingGroup u.ScalingGroup with
  | .ok _ => none
  | .error err => some (.ipError u.ScalingGroup err)

/-- An NGINX client on which every upstream exists and every update reports
no change. -/
def quietNginx : nginx.NginxClient :=
  { CheckIfUpstreamExists := fun _ => none
    CheckIfStreamUpstreamExists := fun _ => none
    UpdateHTTPServers := fun _ _ => .ok ([], [])
    UpdateStreamServers := fun _ _ => .ok ([], []) }

/-- A provider with two upstreams whose scaling-group existence check answers
`(false, nil)` for the group `missing-group` and `(true, nil)` otherwise, and
whose IP resolution fails for `missing-group`. -/
def sampleProvider : CloudProvider :=
  { GetPrivateIPsForScalingGroup := fun name =>
      if name = "missing-group" then .error "autoscaling group missing-group doesn't exist"
      else .ok ["10.0.0.1", "10.0.0.2"]
    CheckIfScalingGroupExists := fun name => (decide (name ≠ "missing-group"), none)
    GetUpstreamsConfig :=
      [{ Name := "backend1", Port := 80, ScalingGroup := "missing-group", Kind := "http" },
       { Name := "backend2", Port := 80, ScalingGroup := "backend-group", Kind := "stream" }]
    GetAPIEndpoint := "http://127.0.0.1:8080/api"
    GetSyncIntervalInSeconds := 5 }

/-- An instance whose first interface has no private address and whose second
interface has one. -/
def laterAddressInstance : ec2.Instance :=
  { NetworkInterfaces := [{ PrivateIpAddress := none }, { PrivateIpAddress := some "10.0.0.5" }] }

/-- A group with the one member `i-1`. -/
def oneMemberGroup : autoscaling.Group :=
  { Instances := [{ InstanceId := some "i-1" }] }

/-! ## Validation lemmas -/

theorem validateUpstreams_eq_none_iff (l : List awsUpstream) :
    validateUpstreams l = none ↔ ∀ ups ∈ l, upstreamPasses ups := by
  induction l with
  | nil => simp [validateUpstreams]
  | cons u rest ih =>
    unfold validateUpstreams
    by_cases h1 : u.Name = ""
    · simp [h1, upstreamPasses]
    · by_cases h2 : u.AutoscalingGroup = ""
      · simp [h1, h2, upstreamPasses]
      · by_cases h3 : u.Port = 0
        · simp [h1, h2, h3, upstreamPasses]
        · by_cases h4 : u.Kind = "http" ∨ u.Kind = "stream"
          · have h5 : u.Kind ≠ "" := by
              rcases h4 with h | h <;> rw [h] <;> decide
            simp [h1, h2, h3, h4, h5, ih, upstreamPasses]
          · simp [h1, h2, h3, h4, upstreamPasses]

theorem validateUpstreams_append_of_passes (pre l : List awsUpstream)
    (hpre : ∀ p ∈ pre, upstreamPasses p) :
    validateUpstreams (pre ++ l) = validateUpstreams l := by
  induction pre with
  | nil => rfl
  | cons p pre ih =>
    have hp : upstreamPasses p := hpre p (List.mem_cons_self _ _)
    have hrest : ∀ q ∈ pre, upstreamPasses q := fun q hq => hpre q (List.mem_cons_of_mem _ hq)
    obtain ⟨h1, h2, h3, h4⟩ := hp
    have h5 : p.Kind ≠ "" := by
      rcases h4 with h | h <;> rw [h] <;> decide
    rw [List.cons_append, validateUpstreams]
    simp [h1, h2, h3, h4, h5, ih hrest]

theorem exists_first_failing (l : List awsUpstream)
    (h : ¬ ∀ ups ∈ l, upstreamPasses ups) :
    ∃ (pre post : List awsUpstream) (u : awsUpstream),
      l = pre ++ u :: post ∧ (∀ p ∈ pre, upstreamPasses p) ∧ ¬ upstreamPasses u := by
  induction l with
  | nil => exact absurd (by simp) h
  | cons a rest ih =>
    by_cases ha : upstreamPasses a
    · have hrest : ¬ ∀ ups ∈ rest, upstreamPasses ups := by
        intro hall
        apply h
        intro ups hups
        rcases List.mem_cons.mp hups with rfl | hmem
        · exact ha
        · exact hall ups hmem
      obtain ⟨pre, post, u, hl, hpre, hu⟩ := ih hrest
      refine ⟨a :: pre, post, u, by simp [hl], ?_, hu⟩
      intro p hp
      rcases List.mem_cons.mp hp with rfl | hmem
      · exact ha
      · exact hpre p hmem
    · exact ⟨[], rest, a, rfl, by simp, ha⟩

theorem validateAWSConfig_eq_none_iff (cfg : awsConfig) :
    validateAWSConfig cfg = none ↔
      cfg.Region ≠ "" ∧ cfg.APIEndpoint ≠ "" ∧ cfg.SyncIntervalInSeconds ≠ 0 ∧
        cfg.Upstreams ≠ [] ∧ ∀ ups ∈ cfg.Upstreams, upstreamPasses ups := by
  unfold validateAWSConfig
  by_cases h1 : cfg.Region = ""
  · simp [h1]
  · by_cases h2 : cfg.APIEndpoint = ""
    · simp [h1, h2]
    · by_cases h3 : cfg.SyncIntervalInSeconds = 0
      · simp [h1, h2, h3]
      · by_cases h4 : cfg.Upstreams = []
        · simp [h1, h2, h3, h4]
        · have h5 : cfg.Upstreams.length ≠ 0 := by
            simpa [List.length_eq_zero] using h4
          simp only [h1, h2, h3, h5, if_false]
          rw [validateUpstreams_eq_none_iff]
          exact ⟨fun h => ⟨h1, h2, h3, h4, h⟩, fun h => h.2.2.2.2⟩

theorem violatesMandatory_iff (cfg : awsConfig) :
    violatesMandatory cfg ↔ validateAWSConfig cfg ≠ none := by
  rw [Ne, validateAWSConfig_eq_none_iff]
  unfold violatesMandatory upstreamPasses
  constructor
  · rintro (h | h | h | h | ⟨ups, hmem, h⟩) ⟨h1, h2, h3, h4, h5⟩
    · exact h1 h
    · exact h2 h
    · exact h3 h
    · exact h4 h
    · obtain ⟨a, b, c, d⟩ := h5 ups hmem
      rcases h with h | h | h | h
      · exact a h
      · exact b h
      · exact c h
      · exact h d
  · intro h
    by_contra hno
    apply h
    refine ⟨fun e => hno (Or.inl e), fun e => hno (Or.inr (Or.inl e)),
      fun e => hno (Or.inr (Or.inr (Or.inl e))),
      fun e => hno (Or.inr (Or.inr (Or.inr (Or.inl e)))), ?_⟩
    intro ups hmem
    have hups : ∀ q : Prop, (q → ups.Name = "" ∨ ups.AutoscalingGroup = "" ∨ ups.Port = 0 ∨
        ¬ (ups.Kind = "http" ∨ ups.Kind = "stream")) → ¬ q :=
      fun q hq e => hno (Or.inr (Or.inr (Or.inr (Or.inr ⟨ups, hmem, hq e⟩))))
    refine ⟨hups _ Or.inl, hups _ (fun e => Or.inr (Or.inl e)),
      hups _ (fun e => Or.inr (Or.inr (Or.inl e))), ?_⟩
    by_contra hk
    exact hups _ (fun e : True => Or.inr (Or.inr (Or.inr hk))) trivial

theorem mentions_of_eq (msg before field after : String)
    (h : msg = before ++ field ++ after) : mentions msg field := by
  subst h
  exact ⟨before.data, after.data, by simp⟩

theorem mentions_upstream_field (field upstream : String) :
    mentions (upstreamErrorMsgFormat field upstream) field ∧
      mentions (upstreamErrorMsgFormat field upstream) upstream := by
  constructor
  · exact mentions_of_eq _ "The mandatory field " field
      (" is either empty or missing for the upstream " ++ upstream ++ " in the config file")
      (by simp [upstreamErrorMsgFormat, String.append_assoc])
  · exact mentions_of_eq _
      ("The mandatory field " ++ field ++ " is either empty or missing for the upstream ")
      upstream " in the config file" (by simp [upstreamErrorMsgFormat])

theorem mentions_upstream_port (upstream : String) :
    mentions (upstreamPortErrorMsgFormat upstream) "port" ∧
      mentions (upstreamPortErrorMsgFormat upstream) upstream := by
  constructor
  · refine mentions_of_eq _ "The mandatory field " "port"
      (" is either zero or missing for the upstream " ++ upstream ++ " in the config file") ?_
    have hlit : "The mandatory field port is either zero or missing for the upstream "
        = "The mandatory field " ++ "port" ++ " is either zero or missing for the upstream " := by
      decide
    rw [upstreamPortErrorMsgFormat, hlit]
    simp only [String.append_assoc]
  · exact mentions_of_eq _
      "The mandatory field port is either zero or missing for the upstream "
      upstream " in the config file" (by simp [upstreamPortErrorMsgFormat])

theorem mentions_upstream_kind (upstream : String) :
    mentions (upstreamKindErrorMsgFormat upstream) "kind" ∧
      mentions (upstreamKindErrorMsgFormat upstream) upstream := by
  constructor
  · refine mentions_of_eq _ "The mandatory field " "kind"
      (" is either not equal to http or tcp or missing for the upstream " ++ upstream
        ++ " in the config file") ?_
    have hlit :
        "The mandatory field kind is either not equal to http or tcp or missing for the upstream "
        = "The mandatory field " ++ "kind"
            ++ " is either not equal to http or tcp or missing for the upstream " := by
      decide
    rw [upstreamKindErrorMsgFormat, hlit]
    simp only [String.append_assoc]
  · exact mentions_of_eq _
      "The mandatory field kind is either not equal to http or tcp or missing for the upstream "
      upstream " in the config file" (by simp [upstreamKindErrorMsgFormat])

theorem validateAWSConfig_of_top_level (cfg : awsConfig) (h1 : cfg.Region ≠ "")
    (h2 : cfg.APIEndpoint ≠ "") (h3 : cfg.SyncIntervalInSeconds ≠ 0)
    (pre post : List awsUpstream) (u : awsUpstream) (hl : cfg.Upstreams = pre ++ u :: post)
    (hpre : ∀ p ∈ pre, upstreamPasses p) :
    validateAWSConfig cfg = validateUpstreams (u :: post) := by
  have h5 : cfg.Upstreams.length ≠ 0 := by simp [hl]
  unfold validateAWSConfig
  simp only [h1, h2, h3, h5, if_false]
  rw [hl, validateUpstreams_append_of_passes pre _ hpre]

/-! ## Loops that append -/

theorem foldl_append_singleton {α β : Type} (f : α → β) (l : List α) (init : List β) :
    l.foldl (fun acc x => acc ++ [f x]) init = init ++ l.map f := by
  induction l generalizing init with
  | nil => simp
  | cons x xs ih => simp [List.foldl_cons, ih]

theorem httpServers_eq_map (ips : List String) (port : Int) :
    httpServers ips port
      = ips.map (fun ip => { Server := ip ++ ":" ++ toString port, MaxFails := 1 }) := by
  unfold httpServers
  rw [foldl_append_singleton (fun ip => ({ Server := backend ip port, MaxFails := 1 } :
    nginx.UpstreamServer))]
  rfl

theorem streamServers_eq_map (ips : List String) (port : Int) :
    streamServers ips port
      = ips.map (fun ip => { Server := ip ++ ":" ++ toString port, MaxFails := 1 }) := by
  unfold streamServers
  rw [foldl_append_singleton (fun ip => ({ Server := backend ip port, MaxFails := 1 } :
    nginx.StreamUpstreamServer))]
  rfl

theorem submissions_append (a b : List Event) :
    submissions (a ++ b) = submissions a ++ submissions b := by
  induction a with
  | nil => rfl
  | cons e rest ih => cases e <;> simp [submissions, ih]

theorem logEntries_append (a b : List Event) :
    logEntries (a ++ b) = logEntries a ++ logEntries b := by
  induction a with
  | nil => rfl
  | cons e rest ih => cases e <;> simp [logEntries, ih]

theorem ipRequests_append (a b : List Event) :
    ipRequests (a ++ b) = ipRequests a ++ ipRequests b := by
  induction a with
  | nil => rfl
  | cons e rest ih => cases e <;> simp [ipRequests, ih]

theorem submissions_syncUpstream_of_ok (provider : CloudProvider)
    (nginxClient : nginx.NginxClient) (upstream : Upstream) (ips : List String)
    (h : provider.GetPrivateIPsForScalingGroup upstream.ScalingGroup = .ok ips) :
    submissions (syncUpstream provider nginxClient upstream)
      = [(decide (upstream.Kind = "http"), upstream.Name,
          ips.map (fun ip => (ip ++ ":" ++ toString upstream.Port, 1)))] := by
  unfold syncUpstream
  rw [h]
  by_cases hk : upstream.Kind = "http"
  · simp only [hk, if_true]
    cases hu : nginxClient.UpdateHTTPServers upstream.Name (httpServers ips upstream.Port) with
    | error err => simp [submissions, httpServers_eq_map]
    | ok res =>
      obtain ⟨added, removed⟩ := res
      by_cases hc : added.length > 0 ∨ removed.length > 0
      · simp [submissions, httpServers_eq_map, hc]
      · simp [submissions, httpServers_eq_map, hc]
  · simp only [hk, if_false]
    cases hu : nginxClient.UpdateStreamServers upstream.Name
        (streamServers ips upstream.Port) with
    | error err => simp [submissions, streamServers_eq_map]
    | ok res =>
      obtain ⟨added, removed⟩ := res
      by_cases hc : added.length > 0 ∨ removed.length > 0
      · simp [submissions, streamServers_eq_map, hc]
      · simp [submissions, streamServers_eq_map, hc]

theorem syncUpstream_of_error (provider : CloudProvider) (nginxClient : nginx.NginxClient)
    (upstream : Upstream) (err : String)
    (h : provider.GetPrivateIPsForScalingGroup upstream.ScalingGroup = .error err) :
    syncUpstream provider nginxClient upstream
      = [.getIPs upstream.ScalingGroup, .log (.ipError upstream.ScalingGroup err)] := by
  unfold syncUpstream
  rw [h]

theorem ipRequests_syncUpstream (provider : CloudProvider) (nginxClient : nginx.NginxClient)
    (upstream : Upstream) :
    ipRequests (syncUpstream provider nginxClient upstream) = [upstream.ScalingGroup] := by
  unfold syncUpstream
  cases provider.GetPrivateIPsForScalingGroup upstream.ScalingGroup with
  | error err => simp [ipRequests]
  | ok ips =>
    by_cases hk : upstream.Kind = "http"
    · simp only [hk, if_true]
      cases nginxClient.UpdateHTTPServers upstream.Name (httpServers ips upstream.Port) with
      | error err => simp [ipRequests]
      | ok res =>
        by_cases hc : res.1.length > 0 ∨ res.2.length > 0
        · simp [ipRequests, hc]
        · simp [ipRequests, hc]
    · simp only [hk, if_false]
      cases nginxClient.UpdateStreamServers upstream.Name (streamServers ips upstream.Port) with
      | error err => simp [ipRequests]
      | ok res =>
        by_cases hc : res.1.length > 0 ∨ res.2.length > 0
        · simp [ipRequests, hc]
        · simp [ipRequests, hc]

theorem ipErrors_syncUpstream_of_ok (provider : CloudProvider)
    (nginxClient : nginx.NginxClient) (upstream : Upstream) (ips : List String)
    (h : provider.GetPrivateIPsForScalingGroup upstream.ScalingGroup = .ok ips) :
    (logEntries (syncUpstream provider nginxClient upstream)).filter LogEntry.isIPError = [] := by
  unfold syncUpstream
  rw [h]
  by_cases hk : upstream.Kind = "http"
  · simp only [hk, if_true]
    cases nginxClient.UpdateHTTPServers upstream.Name (httpServers ips upstream.Port) with
    | error err => simp [logEntries, LogEntry.isIPError]
    | ok res =>
      by_cases hc : res.1.length > 0 ∨ res.2.length > 0
      · simp [logEntries, LogEntry.isIPError, hc]
      · simp [logEntries, LogEntry.isIPError, hc]
  · simp only [hk, if_false]
    cases nginxClient.UpdateStreamServers upstream.Name (streamServers ips upstream.Port) with
    | error err => simp [logEntries, LogEntry.isIPError]
    | ok res =>
      by_cases hc : res.1.length > 0 ∨ res.2.length > 0
      · simp [logEntries, LogEntry.isIPError, hc]
      · simp [logEntries, LogEntry.isIPError, hc]

theorem syncUpstreams_append (provider : CloudProvider) (nginxClient : nginx.NginxClient)
    (pre post : List Upstream) :
    syncUpstreams provider nginxClient (pre ++ post)
      = syncUpstreams provider nginxClient pre ++ syncUpstreams provider nginxClient post := by
  induction pre with
  | nil => rfl
  | cons u rest ih => simp [syncUpstreams, ih]

/-! ## The two cloud queries -/

theorem foldl_appendPrivateIP (instances : List ec2.Instance) (init : List String) :
    instances.foldl appendPrivateIP init = init ++ instances.filterMap firstPrivateIP := by
  induction instances generalizing init with
  | nil => simp
  | cons ins rest ih =>
    rw [List.foldl_cons, ih, List.filterMap_cons]
    unfold appendPrivateIP firstPrivateIP
    cases hni : ins.NetworkInterfaces with
    | nil => simp
    | cons ni others =>
      cases hip : ni.PrivateIpAddress with
      | none => simp [hip]
      | some ip => simp [hip]

theorem foldl_append_instances (resp : List ec2.Reservation) (init : List ec2.Instance) :
    resp.foldl (fun result res => result ++ res.Instances) init
      = init ++ resp.flatMap (fun res => res.Instances) := by
  induction resp generalizing init with
  | nil => simp
  | cons res rest ih => simp [List.foldl_cons, ih, List.flatMap_cons]

theorem getAutoscalingGroup_of_error (client : AWSClient) (name err : String)
    (h : client.svcAutoscaling [name] = .error err) :
    client.getAutoscalingGroup name = (none, false, some err) := by
  unfold AWSClient.getAutoscalingGroup
  rw [h]

theorem getAutoscalingGroup_of_not_one (client : AWSClient) (name : String)
    (groups : List autoscaling.Group) (h : client.svcAutoscaling [name] = .ok groups)
    (hlen : groups.length ≠ 1) :
    client.getAutoscalingGroup name = (none, false, none) := by
  unfold AWSClient.getAutoscalingGroup
  rw [h]
  simp [hlen]

theorem getAutoscalingGroup_of_one (client : AWSClient) (name : String)
    (group : autoscaling.Group) (h : client.svcAutoscaling [name] = .ok [group]) :
    client.getAutoscalingGroup name = (some group, true, none) := by
  unfold AWSClient.getAutoscalingGroup
  rw [h]
  simp

theorem firstPrivateIP_eq_none_of_no_address (ins : ec2.Instance)
    (h : ∀ ni ∈ ins.NetworkInterfaces, ni.PrivateIpAddress = none) :
    firstPrivateIP ins = none := by
  unfold firstPrivateIP
  cases hni : ins.NetworkInterfaces with
  | nil => rfl
  | cons ni others => exact h ni (by simp [hni])

/-! ## The preflight -/

theorem preflightUpstreams_of_all_pass (provider : CloudProvider)
    (nginxClient : nginx.NginxClient) (upstreams : List Upstream)
    (h : ∀ ups ∈ upstreams, upstreamExistsError nginxClient ups = none ∧
      (provider.CheckIfScalingGroupExists ups.ScalingGroup).2 = none) :
    preflightUpstreams provider nginxClient upstreams
      = ((upstreams.filter
            (fun ups => !(provider.CheckIfScalingGroupExists ups.ScalingGroup).1)).map
          (fun ups => .scalingGroupWarning ups.ScalingGroup), .loopEntered) := by
  induction upstreams with
  | nil => rfl
  | cons u rest ih =>
    have hu := h u (List.mem_cons_self _ _)
    have hrest := ih (fun ups hmem => h ups (List.mem_cons_of_mem _ hmem))
    unfold preflightUpstreams
    rw [hu.1]
    cases hc : provider.CheckIfScalingGroupExists u.ScalingGroup with
    | mk found err =>
      have herr : err = none := by simpa [hc] using hu.2
      subst herr
      cases found <;> simp [hrest, List.filter_cons, hc]

theorem preflightUpstreams_of_some_fail (provider : CloudProvider)
    (nginxClient : nginx.NginxClient) (upstreams : List Upstream)
    (h : ∃ ups ∈ upstreams, upstreamExistsError nginxClient ups ≠ none ∨
      (provider.CheckIfScalingGroupExists ups.ScalingGroup).2 ≠ none) :
    (preflightUpstreams provider nginxClient upstreams).2 = .exit 10 := by
  induction upstreams with
  | nil =>
    obtain ⟨ups, hmem, _⟩ := h
    cases hmem
  | cons u rest ih =>
    unfold preflightUpstreams
    cases he : upstreamExistsError nginxClient u with
    | some err => rfl
    | none =>
      cases hc : provider.CheckIfScalingGroupExists u.ScalingGroup with
      | mk found err =>
        cases err with
        | some e => rfl
        | none =>
          have hrest : ∃ ups ∈ rest, upstreamExistsError nginxClient ups ≠ none ∨
              (provider.CheckIfScalingGroupExists ups.ScalingGroup).2 ≠ none := by
            obtain ⟨ups, hmem, hbad⟩ := h
            rcases List.mem_cons.mp hmem with rfl | hmem
            · rcases hbad with hbad | hbad
              · exact absurd he hbad
              · exact absurd (by rw [hc]) hbad
            · exact ⟨ups, hmem, hbad⟩
          cases found <;> simpa using ih hrest

/-! ## Claims on the validation of the config -/

/-- C1: `validateAWSConfig` returns a non-nil error whenever the region is
empty, the api_endpoint is empty, the sync interval is 0, the upstream list is
empty, or some upstream has an empty name, an empty autoscaling_group, a zero
port or a kind that is not exactly `http` or `stream`; it returns nil for
every config in which none of these holds; the kinds `HTTP` and `tcp` are
rejected. -/
theorem validateAWSConfig_rejects_exactly_violations (cfg : awsConfig) :
    (violatesMandatory cfg → validateAWSConfig cfg ≠ none) ∧
    (¬ violatesMandatory cfg → validateAWSConfig cfg = none) ∧
    ((∃ ups ∈ cfg.Upstreams, ups.Kind = "HTTP" ∨ ups.Kind = "tcp") →
      validateAWSConfig cfg ≠ none) := by
  refine ⟨(violatesMandatory_iff cfg).mp, ?_, ?_⟩
  · intro h
    by_contra hne
    exact h ((violatesMandatory_iff cfg).mpr hne)
  · rintro ⟨ups, hmem, hk⟩
    apply (violatesMandatory_iff cfg).mp
    refine Or.inr (Or.inr (Or.inr (Or.inr ⟨ups, hmem, Or.inr (Or.inr (Or.inr ?_))⟩)))
    rcases hk with hk | hk <;> rw [hk] <;> decide

/-- Witness of C1: the test config with kind `HTTP` and with kind `tcp` is
rejected, the valid test config is accepted. -/
theorem validateAWSConfig_rejects_exactly_violations_witness :
    validateAWSConfig (configWithKind "HTTP") ≠ none ∧
    validateAWSConfig getValidConfig = none ∧
    validateAWSConfig (configWithKind "tcp") ≠ none :=
  ⟨(validateAWSConfig_rejects_exactly_violations (configWithKind "HTTP")).1 (by decide),
   (validateAWSConfig_rejects_exactly_violations getValidConfig).2.1 (by decide),
   (validateAWSConfig_rejects_exactly_violations (configWithKind "tcp")).2.2 (by decide)⟩

/-- C2: a failing `validateAWSConfig` returns the error of the first violated
check in the order region, api_endpoint, sync_interval_in_seconds, non-empty
upstream list, and then, for the first upstream in list order that violates a
rule, name, autoscaling_group, port, kind. What comes after the first
violation (later fields, later upstreams) is unconstrained, so it has no
influence on the error. Each message names its field and, for
autoscaling_group, port and kind, the offending upstream. -/
theorem validateAWSConfig_first_violation (cfg : awsConfig) :
    (cfg.Region = "" → validateAWSConfig cfg = some (errorMsgFormat "region")) ∧
    (cfg.Region ≠ "" → cfg.APIEndpoint = "" →
      validateAWSConfig cfg = some (errorMsgFormat "api_endpoint")) ∧
    (cfg.Region ≠ "" → cfg.APIEndpoint ≠ "" → cfg.SyncIntervalInSeconds = 0 →
      validateAWSConfig cfg = some intervalErrorMsg) ∧
    (cfg.Region ≠ "" → cfg.APIEndpoint ≠ "" → cfg.SyncIntervalInSeconds ≠ 0 →
      cfg.Upstreams = [] → validateAWSConfig cfg = some noUpstreamsErrorMsg) ∧
    (cfg.Region ≠ "" → cfg.APIEndpoint ≠ "" → cfg.SyncIntervalInSeconds ≠ 0 →
      ∀ (pre post : List awsUpstream) (u : awsUpstream),
        cfg.Upstreams = pre ++ u :: post → (∀ p ∈ pre, upstreamPasses p) →
        (u.Name = "" → validateAWSConfig cfg = some upstreamNameErrorMsg) ∧
        (u.Name ≠ "" → u.AutoscalingGroup = "" →
          validateAWSConfig cfg = some (upstreamErrorMsgFormat "autoscaling_group" u.Name)) ∧
        (u.Name ≠ "" → u.AutoscalingGroup ≠ "" → u.Port = 0 →
          validateAWSConfig cfg = some (upstreamPortErrorMsgFormat u.Name)) ∧
        (u.Name ≠ "" → u.AutoscalingGroup ≠ "" → u.Port ≠ 0 →
          ¬ (u.Kind = "http" ∨ u.Kind = "stream") →
          validateAWSConfig cfg = some (upstreamKindErrorMsgFormat u.Name))) ∧
    (validateAWSConfig cfg ≠ none →
      cfg.Region = "" ∨ cfg.APIEndpoint = "" ∨ cfg.SyncIntervalInSeconds = 0 ∨
        cfg.Upstreams = [] ∨
        ∃ (pre post : List awsUpstream) (u : awsUpstream),
          cfg.Upstreams = pre ++ u :: post ∧ (∀ p ∈ pre, upstreamPasses p) ∧
            ¬ upstreamPasses u) ∧
    (mentions (errorMsgFormat "region") "region" ∧
      mentions (errorMsgFormat "api_endpoint") "api_endpoint" ∧
      mentions intervalErrorMsg "sync_interval_in_seconds" ∧
      mentions noUpstreamsErrorMsg "upstreams" ∧
      mentions upstreamNameErrorMsg "name" ∧
      ∀ name : String,
        mentions (upstreamErrorMsgFormat "autoscaling_group" name) "autoscaling_group" ∧
        mentions (upstreamErrorMsgFormat "autoscaling_group" name) name ∧
        mentions (upstreamPortErrorMsgFormat name) "port" ∧
        mentions (upstreamPortErrorMsgFormat name) name ∧
        mentions (upstreamKindErrorMsgFormat name) "kind" ∧
        mentions (upstreamKindErrorMsgFormat name) name) := by
  refine ⟨?_, ?_, ?_, ?_, ?_, ?_, ?_⟩
  · intro h
    simp [validateAWSConfig, h]
  · intro h1 h2
    simp [validateAWSConfig, h1, h2]
  · intro h1 h2 h3
    simp [validateAWSConfig, h1, h2, h3]
  · intro h1 h2 h3 h4
    simp [validateAWSConfig, h1, h2, h3, h4]
  · intro h1 h2 h3 pre post u hl hpre
    rw [validateAWSConfig_of_top_level cfg h1 h2 h3 pre post u hl hpre]
    refine ⟨?_, ?_, ?_, ?_⟩
    · intro a
      simp [validateUpstreams, a]
    · intro a b
      simp [validateUpstreams, a, b]
    · intro a b c
      simp [validateUpstreams, a, b, c]
    · intro a b c d
      simp [validateUpstreams, a, b, c, d]
  · intro hne
    by_cases h1 : cfg.Region = ""
    · exact Or.inl h1
    by_cases h2 : cfg.APIEndpoint = ""
    · exact Or.inr (Or.inl h2)
    by_cases h3 : cfg.SyncIntervalInSeconds = 0
    · exact Or.inr (Or.inr (Or.inl h3))
    by_cases h4 : cfg.Upstreams = []
    · exact Or.inr (Or.inr (Or.inr (Or.inl h4)))
    refine Or.inr (Or.inr (Or.inr (Or.inr ?_)))
    apply exists_first_failing
    intro hall
    exact hne ((validateAWSConfig_eq_none_iff cfg).mpr ⟨h1, h2, h3, h4, hall⟩)
  · refine ⟨?_, ?_, ?_, ?_, ?_, ?_⟩
    · exact mentions_of_eq _ "The mandatory field " "region"
        " is either empty or missing in the config file" rfl
    · exact mentions_of_eq _ "The mandatory field " "api_endpoint"
        " is either empty or missing in the config file" rfl
    · unfold mentions; decide
    · unfold mentions; decide
    · unfold mentions; decide
    · intro name
      exact ⟨(mentions_upstream_field _ name).1, (mentions_upstream_field _ name).2,
        (mentions_upstream_port name).1, (mentions_upstream_port name).2,
        (mentions_upstream_kind name).1, (mentions_upstream_kind name).2⟩

/-- Witness of C2: with every top-level field missing the error is the one of
the region; with a zero port and a wrong kind on the second upstream and a
nameless third upstream the error is the port error of the second upstream. -/
theorem validateAWSConfig_first_violation_witness :
    validateAWSConfig emptyConfig = some (errorMsgFormat "region") ∧
    validateAWSConfig secondUpstreamBrokenConfig
      = some (upstreamPortErrorMsgFormat "backend2") :=
  ⟨(validateAWSConfig_first_violation emptyConfig).1 (by decide),
   ((validateAWSConfig_first_violation secondUpstreamBrokenConfig).2.2.2.2.1
      (by decide) (by decide) (by decide)
      [{ Name := "backend1", AutoscalingGroup := "backend-group", Port := 80, Kind := "http" }]
      [{ Name := "", AutoscalingGroup := "", Port := 0, Kind := "" }]
      { Name := "backend2", AutoscalingGroup := "backend-group", Port := 0, Kind := "tcp" }
      (by decide) (by decide)).2.2.1 (by decide) (by decide) (by decide)⟩

/-- C9, the claim as stated fails: the test config with port `-1` is accepted
by `validateAWSConfig` although its upstream has a negative port. -/
theorem validateAWSConfig_accepts_negative_port :
    ¬ (validateAWSConfig (configWithPort (-1)) = none →
        ∀ ups ∈ (configWithPort (-1)).Upstreams, 0 < ups.Port) := by
  decide

/-- C9, amended: every config accepted by `validateAWSConfig` has a non-zero
port on every upstream, and a config with an upstream whose port is zero is
rejected. -/
theorem validateAWSConfig_port_ne_zero (cfg : awsConfig) :
    (validateAWSConfig cfg = none → ∀ ups ∈ cfg.Upstreams, ups.Port ≠ 0) ∧
    ((∃ ups ∈ cfg.Upstreams, ups.Port = 0) → validateAWSConfig cfg ≠ none) := by
  have key : validateAWSConfig cfg = none → ∀ ups ∈ cfg.Upstreams, ups.Port ≠ 0 := by
    intro h ups hmem
    exact (((validateAWSConfig_eq_none_iff cfg).mp h).2.2.2.2 ups hmem).2.2.1
  refine ⟨key, ?_⟩
  rintro ⟨ups, hmem, h0⟩ hnone
  exact key hnone ups hmem h0

/-- Witness of C9 amended, on the valid test config and on the test config with
port `0`. -/
theorem validateAWSConfig_port_ne_zero_witness :
    (∀ ups ∈ getValidConfig.Upstreams, ups.Port ≠ 0) ∧
    validateAWSConfig (configWithPort 0) ≠ none :=
  ⟨(validateAWSConfig_port_ne_zero getValidConfig).1 (by decide),
   (validateAWSConfig_port_ne_zero (configWithPort 0)).2 (by decide)⟩

/-- C10, the claim as stated fails: the test config with a sync interval of
`-5` is accepted by `validateAWSConfig`, and the wait at the end of a tick is
then for a negative duration. -/
theorem validateAWSConfig_accepts_negative_interval :
    validateAWSConfig (configWithInterval (-5)) = none ∧
    ¬ (0 < (configWithInterval (-5)).SyncIntervalInSeconds) ∧
    tickWait (clientWith (.ok []) (.ok []) (configWithInterval (-5))).toCloudProvider
      = -5000000000 := by
  decide

/-- C10, amended: every config accepted by `validateAWSConfig` has a non-zero
sync interval and a config with a zero sync interval is rejected; when the
interval of the saved config is positive and at most 9223372036 seconds, the
wait at the end of a tick is for that many seconds, a positive duration. -/
theorem validateAWSConfig_interval_ne_zero (client : AWSClient) :
    (validateAWSConfig client.config = none → client.config.SyncIntervalInSeconds ≠ 0) ∧
    (client.config.SyncIntervalInSeconds = 0 → validateAWSConfig client.config ≠ none) ∧
    (0 < client.config.SyncIntervalInSeconds →
      client.config.SyncIntervalInSeconds ≤ 9223372036 →
      tickWait client.toCloudProvider = client.config.SyncIntervalInSeconds * 1000000000 ∧
        0 < tickWait client.toCloudProvider) := by
  have key : validateAWSConfig client.config = none →
      client.config.SyncIntervalInSeconds ≠ 0 :=
    fun h => ((validateAWSConfig_eq_none_iff client.config).mp h).2.2.1
  refine ⟨key, fun h0 hnone => key hnone h0, ?_⟩
  intro hpos hle
  have heq : tickWait client.toCloudProvider
      = client.config.SyncIntervalInSeconds * 1000000000 := by
    show wrapInt64 (client.config.SyncIntervalInSeconds * Second) = _
    unfold wrapInt64 Second
    omega
  rw [heq]
  exact ⟨rfl, by omega⟩

/-- Witness of C10 amended, on the config of the test YAML (interval 5) and on
the test config with interval `0`. -/
theorem validateAWSConfig_interval_ne_zero_witness :
    validYamlConfig.SyncIntervalInSeconds ≠ 0 ∧
    validateAWSConfig (configWithInterval 0) ≠ none ∧
    tickWait (clientWith (.ok []) (.ok []) validYamlConfig).toCloudProvider = 5000000000 :=
  ⟨(validateAWSConfig_interval_ne_zero (clientWith (.ok []) (.ok []) validYamlConfig)).1
      (by decide),
   (validateAWSConfig_interval_ne_zero (clientWith (.ok []) (.ok []) (configWithInterval 0))).2.1
      (by decide),
   ((validateAWSConfig_interval_ne_zero (clientWith (.ok []) (.ok []) validYamlConfig)).2.2
      (by decide) (by decide)).1⟩

/-! ## Claims on the server list and the upstream list -/

/-- C3: for every upstream and every list of resolved IPs, the server list
built in a tick has one entry per IP in the order of the IPs, the i-th entry
having the address `ip:port` (port in decimal) of the i-th IP and `MaxFails`
1, in the http and in the stream branch; this is the list the tick submits;
permuting the IPs permutes the server list. -/
theorem desired_servers_of_ips (provider : CloudProvider) (nginxClient : nginx.NginxClient)
    (upstream : Upstream) (ips : List String)
    (h : provider.GetPrivateIPsForScalingGroup upstream.ScalingGroup = .ok ips) :
    (httpServers ips upstream.Port).length = ips.length ∧
    (streamServers ips upstream.Port).length = ips.length ∧
    (∀ i : Nat, (httpServers ips upstream.Port)[i]?
      = (ips[i]?).map
          (fun ip => { Server := ip ++ ":" ++ toString upstream.Port, MaxFails := 1 })) ∧
    (∀ i : Nat, (streamServers ips upstream.Port)[i]?
      = (ips[i]?).map
          (fun ip => { Server := ip ++ ":" ++ toString upstream.Port, MaxFails := 1 })) ∧
    submissions (syncUpstream provider nginxClient upstream)
      = [(decide (upstream.Kind = "http"), upstream.Name,
          ips.map (fun ip => (ip ++ ":" ++ toString upstream.Port, 1)))] ∧
    (∀ ips' : List String, List.Perm ips' ips →
      List.Perm (httpServers ips' upstream.Port) (httpServers ips upstream.Port) ∧
      List.Perm (streamServers ips' upstream.Port) (streamServers ips upstream.Port)) := by
  refine ⟨?_, ?_, ?_, ?_, submissions_syncUpstream_of_ok provider nginxClient upstream ips h, ?_⟩
  · simp [httpServers_eq_map]
  · simp [streamServers_eq_map]
  · intro i
    rw [httpServers_eq_map, List.getElem?_map]
  · intro i
    rw [streamServers_eq_map, List.getElem?_map]
  · intro ips' hperm
    rw [httpServers_eq_map, httpServers_eq_map, streamServers_eq_map, streamServers_eq_map]
    exact ⟨hperm.map _, hperm.map _⟩

/-- Witness of C3: IPs 10.0.0.1 and 10.0.0.2 with port 80 give the submission
of 10.0.0.1:80 and 10.0.0.2:80 with `MaxFails` 1 on the stream upstream
`backend2`. -/
theorem desired_servers_of_ips_witness :
    submissions (syncUpstream sampleProvider quietNginx
        { Name := "backend2", Port := 80, ScalingGroup := "backend-group", Kind := "stream" })
      = [(false, "backend2", [("10.0.0.1:80", 1), ("10.0.0.2:80", 1)])] :=
  (desired_servers_of_ips sampleProvider quietNginx
    { Name := "backend2", Port := 80, ScalingGroup := "backend-group", Kind := "stream" }
    ["10.0.0.1", "10.0.0.2"] (by decide)).2.2.2.2.1

/-- C8: `GetUpstreamsConfig` returns a list of the length of the config's
upstream list, in the same order, whose i-th element has the Name, Port and
Kind of the i-th configured upstream and its autoscaling_group as
ScalingGroup; it depends on the saved config only; for the test config with
one http upstream on `backend-group` and port 80 it returns exactly that one
upstream. -/
theorem GetUpstreamsConfig_mirrors_config (client : AWSClient) :
    client.GetUpstreamsConfig.length = client.config.Upstreams.length ∧
    (∀ i : Nat, client.GetUpstreamsConfig[i]?
      = (client.config.Upstreams[i]?).map
          (fun u => { Name := u.Name, Port := u.Port,
                      ScalingGroup := u.AutoscalingGroup, Kind := u.Kind })) ∧
    (∀ other : AWSClient, other.config = client.config →
      other.GetUpstreamsConfig = client.GetUpstreamsConfig) ∧
    (client.config = getValidConfig →
      client.GetUpstreamsConfig
        = [{ Name := "backend1", Port := 80, ScalingGroup := "backend-group",
             Kind := "http" }]) := by
  have hmap : ∀ c : AWSClient, c.GetUpstreamsConfig
      = c.config.Upstreams.map
          (fun u => { Name := u.Name, Port := u.Port,
                      ScalingGroup := u.AutoscalingGroup, Kind := u.Kind }) := by
    intro c
    unfold AWSClient.GetUpstreamsConfig
    exact (foldl_append_singleton
      (fun u : awsUpstream => (⟨u.Name, u.Port, u.AutoscalingGroup, u.Kind⟩ : Upstream))
      c.config.Upstreams []).trans (List.nil_append _)
  refine ⟨?_, ?_, ?_, ?_⟩
  · simp [hmap]
  · intro i
    rw [hmap, List.getElem?_map]
  · intro other hcfg
    rw [hmap, hmap, hcfg]
  · intro hcfg
    rw [hmap, hcfg]
    rfl

/-- Witness of C8: two clients with different cloud answers and the valid test
config return the same single upstream. -/
theorem GetUpstreamsConfig_mirrors_config_witness :
    (clientWith (.error "timeout") (.error "timeout") getValidConfig).GetUpstreamsConfig
      = (clientWith (.ok []) (.ok []) getValidConfig).GetUpstreamsConfig ∧
    (clientWith (.ok []) (.ok []) getValidConfig).GetUpstreamsConfig
      = [{ Name := "backend1", Port := 80, ScalingGroup := "backend-group", Kind := "http" }] :=
  ⟨(GetUpstreamsConfig_mirrors_config (clientWith (.ok []) (.ok []) getValidConfig)).2.2.1
      (clientWith (.error "timeout") (.error "timeout") getValidConfig) rfl,
   (GetUpstreamsConfig_mirrors_config (clientWith (.ok []) (.ok []) getValidConfig)).2.2.2 rfl⟩

/-! ## Claims on the tick -/

/-- C4: in a tick over a list of upstreams, with the IP resolution and the
submission as oracles, a server list is submitted for exactly the upstreams
whose IP resolution succeeds, in declaration order, each submission depending
on its own upstream only; every upstream is asked for, so a failure never
stops the pass, and the pass over a list is the pass over its first part
followed by the pass over the rest; an upstream whose IP resolution fails
makes no submission and writes exactly one log entry, the error of the
resolution. -/
theorem tick_isolates_resolution_failures (provider : CloudProvider)
    (nginxClient : nginx.NginxClient) (upstreams : List Upstream) :
    submissions (syncUpstreams provider nginxClient upstreams)
      = upstreams.filterMap (expectedSubmission provider) ∧
    (logEntries (syncUpstreams provider nginxClient upstreams)).filter LogEntry.isIPError
      = upstreams.filterMap (expectedIPError provider) ∧
    ipRequests (syncUpstreams provider nginxClient upstreams)
      = upstreams.map (fun u => u.ScalingGroup) ∧
    (∀ pre post : List Upstream, upstreams = pre ++ post →
      syncUpstreams provider nginxClient upstreams
        = syncUpstreams provider nginxClient pre ++ syncUpstreams provider nginxClient post) ∧
    (∀ u ∈ upstreams, ∀ err : String,
      provider.GetPrivateIPsForScalingGroup u.ScalingGroup = .error err →
      syncUpstream provider nginxClient u
        = [.getIPs u.ScalingGroup, .log (.ipError u.ScalingGroup err)]) := by
  refine ⟨?_, ?_, ?_, ?_, ?_⟩
  · induction upstreams with
    | nil => rfl
    | cons u rest ih =>
      rw [syncUpstreams, submissions_append, ih, List.filterMap_cons]
      cases h : provider.GetPrivateIPsForScalingGroup u.ScalingGroup with
      | error err =>
        rw [syncUpstream_of_error provider nginxClient u err h]
        simp [expectedSubmission, h, submissions]
      | ok ips =>
        rw [submissions_syncUpstream_of_ok provider nginxClient u ips h]
        simp [expectedSubmission, h]
  · induction upstreams with
    | nil => rfl
    | cons u rest ih =>
      rw [syncUpstreams, logEntries_append, List.filter_append, ih, List.filterMap_cons]
      cases h : provider.GetPrivateIPsForScalingGroup u.ScalingGroup with
      | error err =>
        rw [syncUpstream_of_error provider nginxClient u err h]
        simp [expectedIPError, h, logEntries, LogEntry.isIPError]
      | ok ips =>
        rw [ipErrors_syncUpstream_of_ok provider nginxClient u ips h]
        simp [expectedIPError, h]
  · induction upstreams with
    | nil => rfl
    | cons u rest ih =>
      rw [syncUpstreams, ipRequests_append, ih, ipRequests_syncUpstream]
      rfl
  · intro pre post h
    rw [h, syncUpstreams_append]
  · intro u _ err h
    exact syncUpstream_of_error provider nginxClient u err h

/-- Witness of C4: in the tick of the sample provider the first upstream fails
to resolve and writes one entry, the second one is still submitted. -/
theorem tick_isolates_resolution_failures_witness :
    syncUpstream sampleProvider quietNginx
        { Name := "backend1", Port := 80, ScalingGroup := "missing-group", Kind := "http" }
      = [.getIPs "missing-group",
         .log (.ipError "missing-group" "autoscaling group missing-group doesn't exist")] ∧
    submissions (tick sampleProvider quietNginx)
      = [(false, "backend2", [("10.0.0.1:80", 1), ("10.0.0.2:80", 1)])] :=
  ⟨(tick_isolates_resolution_failures sampleProvider quietNginx
      sampleProvider.GetUpstreamsConfig).2.2.2.2
      { Name := "backend1", Port := 80, ScalingGroup := "missing-group", Kind := "http" }
      (by decide) "autoscaling group missing-group doesn't exist" (by decide),
   (tick_isolates_resolution_failures sampleProvider quietNginx
      sampleProvider.GetUpstreamsConfig).1⟩

/-! ## Claims on the AWS provider -/

/-- C5, the claim as stated fails: for a group whose one instance has a first
interface without a private address and a second interface with the address
10.0.0.5, the instance has an interface with an assigned private address, so
the list of the claim has one entry for it, but
`GetPrivateIPsForScalingGroup` skips the instance and returns the empty list. -/
theorem GetPrivateIPsForScalingGroup_skips_later_address :
    hasInterfaceWithAddress laterAddressInstance = true ∧
    (clientWith (.ok [oneMemberGroup]) (.ok [{ Instances := [laterAddressInstance] }])
        getValidConfig).GetPrivateIPsForScalingGroup "backend-group" = .ok [] ∧
    ¬ ∃ result : List String,
      (clientWith (.ok [oneMemberGroup]) (.ok [{ Instances := [laterAddressInstance] }])
          getValidConfig).GetPrivateIPsForScalingGroup "backend-group" = .ok result ∧
        result.map some = specPrivateIPs [laterAddressInstance] := by
  refine ⟨by decide, by decide, ?_⟩
  rintro ⟨result, hres, hspec⟩
  have hlen : (result.map some).length = 1 := by
    rw [hspec]
    decide
  have hnil : result = [] := by
    have h0 : (clientWith (.ok [oneMemberGroup]) (.ok [{ Instances := [laterAddressInstance] }])
        getValidConfig).GetPrivateIPsForScalingGroup "backend-group" = .ok [] := by decide
    rw [h0] at hres
    exact (Except.ok.inj hres).symm
  rw [hnil] at hlen
  exact absurd hlen (by decide)

/-- C5, amended: `GetPrivateIPsForScalingGroup` fails when the group query
fails, when the group query does not return exactly one group and when the
instance query fails; otherwise it returns, in the order of the instances
across reservations, the private address of the first network interface of
each instance whose first network interface exists and has an assigned private
address, skipping the other instances. A group with no member instance gives
the empty list whatever the instance query is, and instances without any
assigned private address give the empty list. -/
theorem GetPrivateIPsForScalingGroup_result (client : AWSClient) (name : String) :
    (∀ err : String, client.svcAutoscaling [name] = .error err →
      client.GetPrivateIPsForScalingGroup name = .error err) ∧
    (∀ groups : List autoscaling.Group, client.svcAutoscaling [name] = .ok groups →
      groups.length ≠ 1 →
      client.GetPrivateIPsForScalingGroup name
        = .error ("autoscaling group " ++ name ++ " doesn't exist")) ∧
    (∀ group : autoscaling.Group, client.svcAutoscaling [name] = .ok [group] →
      (group.Instances = [] →
        ∀ query : List (Option String) → Except String (List ec2.Reservation),
          AWSClient.GetPrivateIPsForScalingGroup
            { svcEC2 := query, svcAutoscaling := client.svcAutoscaling,
              config := client.config } name = .ok []) ∧
      (group.Instances ≠ [] → ∀ err : String,
        client.svcEC2 (group.Instances.map (fun ins => ins.InstanceId)) = .error err →
        client.GetPrivateIPsForScalingGroup name = .error err) ∧
      (group.Instances ≠ [] → ∀ resp : List ec2.Reservation,
        client.svcEC2 (group.Instances.map (fun ins => ins.InstanceId)) = .ok resp →
        client.GetPrivateIPsForScalingGroup name
          = .ok ((resp.flatMap (fun res => res.Instances)).filterMap firstPrivateIP) ∧
        ((∀ ins ∈ resp.flatMap (fun res => res.Instances),
            ∀ ni ∈ ins.NetworkInterfaces, ni.PrivateIpAddress = none) →
          client.GetPrivateIPsForScalingGroup name = .ok []))) := by
  refine ⟨?_, ?_, ?_⟩
  · intro err h
    unfold AWSClient.GetPrivateIPsForScalingGroup
    rw [getAutoscalingGroup_of_error client name err h]
  · intro groups h hlen
    unfold AWSClient.GetPrivateIPsForScalingGroup
    rw [getAutoscalingGroup_of_not_one client name groups h hlen]
    rfl
  · intro group h
    have hids : group.Instances.foldl (fun ids ins => ids ++ [ins.InstanceId]) []
        = group.Instances.map (fun ins => ins.InstanceId) :=
      (foldl_append_singleton (fun ins : autoscaling.Instance => ins.InstanceId)
        group.Instances []).trans (List.nil_append _)
    refine ⟨?_, ?_, ?_⟩
    · intro hempty query
      unfold AWSClient.GetPrivateIPsForScalingGroup
      rw [getAutoscalingGroup_of_one
        { svcEC2 := query, svcAutoscaling := client.svcAutoscaling, config := client.config }
        name group h]
      simp [AWSClient.getInstancesOfAutoscalingGroup, hempty]
    · intro hne err herr
      have hlen : group.Instances.length ≠ 0 := by
        simpa [List.length_eq_zero] using hne
      unfold AWSClient.GetPrivateIPsForScalingGroup
      rw [getAutoscalingGroup_of_one client name group h]
      simp [AWSClient.getInstancesOfAutoscalingGroup, hlen, hids, herr]
    · intro hne resp hresp
      have hlen : group.Instances.length ≠ 0 := by
        simpa [List.length_eq_zero] using hne
      have hres : client.GetPrivateIPsForScalingGroup name
          = .ok ((resp.flatMap (fun res => res.Instances)).filterMap firstPrivateIP) := by
        unfold AWSClient.GetPrivateIPsForScalingGroup
        rw [getAutoscalingGroup_of_one client name group h]
        simp [AWSClient.getInstancesOfAutoscalingGroup, hlen, hids, hresp,
          foldl_append_instances, foldl_appendPrivateIP]
      refine ⟨hres, ?_⟩
      intro hnone
      rw [hres]
      congr 1
      rw [List.filterMap_eq_nil_iff]
      intro ins hmem
      exact firstPrivateIP_eq_none_of_no_address ins (hnone ins hmem)

/-- Witness of C5 amended: a failed group query fails, two groups fail, a
failed instance query fails, and two reservations with three instances give
the addresses of the instances whose first interface has one, in order. -/
theorem GetPrivateIPsForScalingGroup_result_witness :
    (clientWith (.error "timeout") (.ok []) getValidConfig).GetPrivateIPsForScalingGroup
        "backend-group" = .error "timeout" ∧
    (clientWith (.ok [oneMemberGroup, oneMemberGroup]) (.ok [])
        getValidConfig).GetPrivateIPsForScalingGroup "backend-group"
      = .error "autoscaling group backend-group doesn't exist" ∧
    (clientWith (.ok [{ Instances := [] }]) (.error "timeout")
        getValidConfig).GetPrivateIPsForScalingGroup "backend-group" = .ok [] ∧
    (clientWith (.ok [oneMemberGroup]) (.error "timeout")
        getValidConfig).GetPrivateIPsForScalingGroup "backend-group" = .error "timeout" ∧
    (clientWith (.ok [oneMemberGroup])
        (.ok [{ Instances := [{ NetworkInterfaces := [{ PrivateIpAddress := some "10.0.0.1" }] },
                              laterAddressInstance] },
              { Instances := [{ NetworkInterfaces := [{ PrivateIpAddress := some "10.0.0.2" },
                                                      { PrivateIpAddress := some "10.0.0.3" }] }] }])
        getValidConfig).GetPrivateIPsForScalingGroup "backend-group"
      = .ok ["10.0.0.1", "10.0.0.2"] :=
  ⟨(GetPrivateIPsForScalingGroup_result (clientWith (.error "timeout") (.ok []) getValidConfig)
      "backend-group").1 "timeout" rfl,
   (GetPrivateIPsForScalingGroup_result
      (clientWith (.ok [oneMemberGroup, oneMemberGroup]) (.ok []) getValidConfig)
      "backend-group").2.1 [oneMemberGroup, oneMemberGroup] rfl (by decide),
   ((GetPrivateIPsForScalingGroup_result
      (clientWith (.ok [{ Instances := [] }]) (.ok []) getValidConfig)
      "backend-group").2.2 { Instances := [] } rfl).1 rfl (fun _ => .error "timeout"),
   ((GetPrivateIPsForScalingGroup_result
      (clientWith (.ok [oneMemberGroup]) (.error "timeout") getValidConfig)
      "backend-group").2.2 oneMemberGroup rfl).2.1 (by decide) "timeout" rfl,
   (((GetPrivateIPsForScalingGroup_result
      (clientWith (.ok [oneMemberGroup])
        (.ok [{ Instances := [{ NetworkInterfaces := [{ PrivateIpAddress := some "10.0.0.1" }] },
                              laterAddressInstance] },
              { Instances := [{ NetworkInterfaces := [{ PrivateIpAddress := some "10.0.0.2" },
                                                      { PrivateIpAddress := some "10.0.0.3" }] }] }])
        getValidConfig)
      "backend-group").2.2 oneMemberGroup rfl).2.2 (by decide) _ rfl).1⟩

/-- C6, evaluation of the code: `CheckIfScalingGroupExists` never returns a nil
error; for a successful group query with exactly one group it returns `true`
with a non-nil error whose text ends in `<nil>`, and for a successful query
with no group it returns `false` with the same non-nil error; the preflight of
`main`, which exits on a non-nil error, then exits with code 10 although the
group exists and the upstream is on the load balancer. -/
theorem CheckIfScalingGroupExists_error_never_nil :
    (∀ (client : AWSClient) (name : String),
      (client.CheckIfScalingGroupExists name).2 ≠ none) ∧
    (clientWith (.ok [oneMemberGroup]) (.ok []) getValidConfig).CheckIfScalingGroupExists
        "backend-group"
      = (true, some "couldn't check if an AutoScaling group exists: <nil>") ∧
    (clientWith (.ok []) (.ok []) getValidConfig).CheckIfScalingGroupExists "backend-group"
      = (false, some "couldn't check if an AutoScaling group exists: <nil>") ∧
    preflight (clientWith (.ok [oneMemberGroup]) (.ok []) getValidConfig).toCloudProvider
        quietNginx
      = ([.cloudProviderError "couldn't check if an AutoScaling group exists: <nil>"],
         .exit 10) := by
  refine ⟨?_, by decide, by decide, by decide⟩
  intro client name
  unfold AWSClient.CheckIfScalingGroupExists
  simp

/-! ## Claims on the preflight -/

/-- C7, the claim as stated fails: with every declared upstream present on the
load balancer and a failing scaling-group query, preflight exits with code 10,
so it is fatal although no declared upstream is missing on the load
balancer. -/
theorem preflight_fatal_on_failed_group_query :
    (∀ ups ∈ (clientWith (.error "RequestError: send request failed") (.ok [])
        getValidConfig).toCloudProvider.GetUpstreamsConfig,
      upstreamExistsError quietNginx ups = none) ∧
    preflight (clientWith (.error "RequestError: send request failed") (.ok [])
        getValidConfig).toCloudProvider quietNginx
      = ([.cloudProviderError
            "couldn't check if an AutoScaling group exists: RequestError: send request failed"],
         .exit 10) := by
  decide

/-- C7, amended: with the preflight as a pass over the declared upstreams, an
existence oracle of the load balancer and the existence check of the provider:
when every declared upstream exists on the load balancer and every existence
check returns a nil error, preflight does not exit; it writes one warning for
each group whose check answered `false`, in order, and the loop is entered.
Preflight is fatal, with exit code 10, exactly when a declared upstream is
missing on the load balancer or an existence check returns a non-nil error. -/
theorem preflight_fatal_iff (provider : CloudProvider) (nginxClient : nginx.NginxClient) :
    ((∀ ups ∈ provider.GetUpstreamsConfig, upstreamExistsError nginxClient ups = none ∧
        (provider.CheckIfScalingGroupExists ups.ScalingGroup).2 = none) →
      preflight provider nginxClient
        = ((provider.GetUpstreamsConfig.filter
              (fun ups => !(provider.CheckIfScalingGroupExists ups.ScalingGroup).1)).map
            (fun ups => .scalingGroupWarning ups.ScalingGroup), .loopEntered)) ∧
    ((∃ ups ∈ provider.GetUpstreamsConfig, upstreamExistsError nginxClient ups ≠ none ∨
        (provider.CheckIfScalingGroupExists ups.ScalingGroup).2 ≠ none) →
      (preflight provider nginxClient).2 = .exit 10) ∧
    ((preflight provider nginxClient).2 ≠ .loopEntered →
      ∃ ups ∈ provider.GetUpstreamsConfig, upstreamExistsError nginxClient ups ≠ none ∨
        (provider.CheckIfScalingGroupExists ups.ScalingGroup).2 ≠ none) := by
  refine ⟨preflightUpstreams_of_all_pass provider nginxClient _,
    preflightUpstreams_of_some_fail provider nginxClient _, ?_⟩
  intro hne
  by_contra hno
  apply hne
  have hall : ∀ ups ∈ provider.GetUpstreamsConfig,
      upstreamExistsError nginxClient ups = none ∧
        (provider.CheckIfScalingGroupExists ups.ScalingGroup).2 = none := by
    intro ups hmem
    constructor
    · by_contra h1
      exact hno ⟨ups, hmem, Or.inl h1⟩
    · by_contra h2
      exact hno ⟨ups, hmem, Or.inr h2⟩
  unfold preflight
  rw [preflightUpstreams_of_all_pass provider nginxClient _ hall]

/-- Witness of C7 amended: with the sample provider, whose check answers
`(false, nil)` for `missing-group`, preflight writes the warning for that group
and enters the loop; with the AWS client and a failing group query it exits
with code 10. -/
theorem preflight_fatal_iff_witness :
    preflight sampleProvider quietNginx
      = ([.scalingGroupWarning "missing-group"], .loopEntered) ∧
    (preflight (clientWith (.error "timeout") (.ok []) getValidConfig).toCloudProvider
      quietNginx).2 = .exit 10 :=
  ⟨(preflight_fatal_iff sampleProvider quietNginx).1 (by decide),
   (preflight_fatal_iff (clientWith (.error "timeout") (.ok []) getValidConfig).toCloudProvider
      quietNginx).2.1 (by decide)⟩

end AsgSync
